import Mathlib

/-!
Verification of the Agent-Git rollback agent system.

This file gives a shallow embedding, in Lean, of the parts of the
`agentgit` Python package that the specification talks about:

* `core/rollback_protocol.py` — the tool rollback registry with its
  invocation track, `rollback`, `redo` and `truncate_track`;
* `checkpoints/checkpoint.py` — the `Checkpoint` model and its
  dictionary (de)serialization;
* `sessions/internal_session.py` — the `InternalSession` model and
  branching from a checkpoint;
* `agents/rollback_agent.py` — the automatic checkpoint node;
* `database/repositories/internal_session_repository.py` — the
  persistence operations that maintain the single-current-session
  invariant;
* `auth/user.py` and `auth/auth_service.py` — users, session limits
  and user deletion.

Python `Any` values are represented by a JSON-like value type `JVal`;
Python dictionaries `Dict[str, Any]` by association lists
`List (String × JVal)`; `datetime` timestamps by `Nat` instants;
functions that may raise by `Except String`-valued functions, the
`String` being the exception message.  Mutating methods are modelled as
state-passing functions returning the new state (and the Python return
value, when there is one).
-/

namespace AgentGit

/-- JSON-like values standing in for Python `Any` payloads. -/
inductive JVal where
  | null
  | bool (b : Bool)
  | int (n : Int)
  | str (s : String)
  | arr (xs : List JVal)
  | obj (xs : List (String × JVal))

/-- A Python `Dict[str, Any]`, as an association list. -/
abbrev PyDict := List (String × JVal)

/-- Python dictionary assignment `d[k] = v`: replace the value of an
existing key, otherwise append the new pair. -/
def PyDict.setKey (d : PyDict) (k : String) (v : JVal) : PyDict :=
  if (d.lookup k).isSome then
    d.map (fun p => if p.1 = k then (k, v) else p)
  else
    d ++ [(k, v)]

/-- Python truthiness of an `Optional[int]`: `None` and `0` are falsy. -/
def pyTruthyOptNat : Option Nat → Bool
  | none => false
  | some n => n != 0

/-! ## `core/rollback_protocol.py` -/

/-- `CHECKPOINT_TOOL_NAMES` from `rollback_protocol.py`: checkpoint tool
names that are excluded from rollback. -/
def CHECKPOINT_TOOL_NAMES : List String :=
  ["create_checkpoint", "list_checkpoints", "rollback_to_checkpoint",
   "delete_checkpoint", "get_checkpoint_info", "cleanup_auto_checkpoints"]

/-- `ToolSpec`: a reversible tool.  `forward` takes the argument
dictionary and returns a result or raises; the optional `reverse` takes
`(args, result)` and returns or raises. -/
structure ToolSpec where
  name : String
  forward : PyDict → Except String JVal
  reverse : Option (PyDict → JVal → Except String JVal) := none

/-- `ToolInvocationRecord`: one recorded tool invocation. -/
structure ToolInvocationRecord where
  tool_name : String
  args : PyDict
  result : JVal
  success : Bool := true
  error_message : Option String := none

/-- `ReverseInvocationResult`: the result of one reverse operation. -/
structure ReverseInvocationResult where
  tool_name : String
  reversed_successfully : Bool
  error_message : Option String := none

/-- The state of a `ToolRollbackRegistry`: the `_tools` dictionary and
the `_track` list. -/
structure ToolRollbackRegistry where
  tools : String → Option ToolSpec
  track : List ToolInvocationRecord

/-- `register_tool`: store the spec under its name. -/
def ToolRollbackRegistry.register_tool (st : ToolRollbackRegistry) (spec : ToolSpec) :
    ToolRollbackRegistry :=
  { st with tools := fun n => if n = spec.name then some spec else st.tools n }

/-- `get_tool`: look a tool spec up by name. -/
def ToolRollbackRegistry.get_tool (st : ToolRollbackRegistry) (name : String) :
    Option ToolSpec :=
  st.tools name

/-- `record_invocation`: append a record to the track. -/
def ToolRollbackRegistry.record_invocation (st : ToolRollbackRegistry)
    (tool_name : String) (args : PyDict) (result : JVal)
    (success : Bool := true) (error_message : Option String := none) :
    ToolRollbackRegistry :=
  { st with track := st.track ++ [⟨tool_name, args, result, success, error_message⟩] }

/-- `truncate_track`: `self._track = self._track[:position]`, with
Python slice semantics — a stop `≥ len` keeps the whole list, a negative
stop counts from the end, clamped at zero.  The method performs no range
check and never raises. -/
def ToolRollbackRegistry.truncate_track (st : ToolRollbackRegistry) (position : Int) :
    ToolRollbackRegistry :=
  { st with track :=
      st.track.take (if 0 ≤ position then position.toNat
        else ((st.track.length : Int) + position).toNat) }

/-- The loop body of `ToolRollbackRegistry.rollback`, walking the
already-reversed track and appending to the accumulated `results` list
exactly as the Python loop appends. -/
def rollbackLoop (tools : String → Option ToolSpec) :
    List ToolInvocationRecord → List ReverseInvocationResult → List ReverseInvocationResult
  | [], results => results
  | r :: rest, results =>
    if r.tool_name ∈ CHECKPOINT_TOOL_NAMES then
      rollbackLoop tools rest results
    else
      match tools r.tool_name with
      | none =>
        rollbackLoop tools rest
          (results ++ [⟨r.tool_name, false, some "No reverse handler registered"⟩])
      | some spec =>
        match spec.reverse with
        | none =>
          rollbackLoop tools rest
            (results ++ [⟨r.tool_name, false, some "No reverse handler registered"⟩])
        | some rev =>
          match rev r.args r.result with
          | .ok _ =>
            rollbackLoop tools rest (results ++ [⟨r.tool_name, true, none⟩])
          | .error e =>
            rollbackLoop tools rest (results ++ [⟨r.tool_name, false, some e⟩])

/-- `rollback`: walk the track in reverse order, then clear it.  Returns
the reverse invocation results and the new registry state. -/
def ToolRollbackRegistry.rollback (st : ToolRollbackRegistry) :
    List ReverseInvocationResult × ToolRollbackRegistry :=
  (rollbackLoop st.tools st.track.reverse [], { st with track := [] })

/-- The loop body of `ToolRollbackRegistry.redo`: for each old record
whose tool is registered, re-invoke `forward(args)` and append a new
record (success, or failure with result `None`); old records of
unregistered tools are skipped.  After the loop the track consists of
exactly the new records. -/
def redoLoop (tools : String → Option ToolSpec) :
    List ToolInvocationRecord → List ToolInvocationRecord → List ToolInvocationRecord
  | [], newRecords => newRecords
  | r :: rest, newRecords =>
    match tools r.tool_name with
    | none => redoLoop tools rest newRecords
    | some spec =>
      match spec.forward r.args with
      | .ok v =>
        redoLoop tools rest (newRecords ++ [⟨r.tool_name, r.args, v, true, none⟩])
      | .error e =>
        redoLoop tools rest (newRecords ++ [⟨r.tool_name, r.args, JVal.null, false, some e⟩])

/-- `redo`: drain the current track and re-invoke the forward handlers;
the new track and the returned list are the same records. -/
def ToolRollbackRegistry.redo (st : ToolRollbackRegistry) :
    List ToolInvocationRecord × ToolRollbackRegistry :=
  let newRecords := redoLoop st.tools st.track []
  (newRecords, { st with track := newRecords })

/-! ### Specification-side descriptions of one rollback / redo step

These two definitions follow the specification's words for what one
record contributes, to be compared with the code-derived loops above. -/

/-- Spec-side description of the result one record contributes to
`Rollback()`: reserved names contribute nothing; a missing reverse
handler yields a failure with the fixed message; a raising handler
yields a failure with the exception message; otherwise a success. -/
def rollbackRecordSpec (tools : String → Option ToolSpec) (r : ToolInvocationRecord) :
    Option ReverseInvocationResult :=
  if r.tool_name ∈ CHECKPOINT_TOOL_NAMES then none
  else
    match tools r.tool_name with
    | none => some ⟨r.tool_name, false, some "No reverse handler registered"⟩
    | some spec =>
      match spec.reverse with
      | none => some ⟨r.tool_name, false, some "No reverse handler registered"⟩
      | some rev =>
        match rev r.args r.result with
        | .ok _ => some ⟨r.tool_name, true, none⟩
        | .error e => some ⟨r.tool_name, false, some e⟩

/-- Spec-side description of the record one prior record contributes to
`Redo()`: nothing when the tool is not registered, otherwise a fresh
success or failure record for `forward(args)`. -/
def redoRecordSpec (tools : String → Option ToolSpec) (r : ToolInvocationRecord) :
    Option ToolInvocationRecord :=
  match tools r.tool_name with
  | none => none
  | some spec =>
    match spec.forward r.args with
    | .ok v => some ⟨r.tool_name, r.args, v, true, none⟩
    | .error e => some ⟨r.tool_name, r.args, JVal.null, false, some e⟩

/-! ## `sessions/internal_session.py` and `checkpoints/checkpoint.py` -/

/-- `InternalSession`: a LangGraph agent session within an external
session.  `datetime` timestamps are `Nat` instants. -/
structure InternalSession where
  id : Option Nat := none
  external_session_id : Nat := 0
  langgraph_session_id : String := ""
  session_state : PyDict := []
  conversation_history : List PyDict := []
  created_at : Option Nat := none
  is_current : Bool := true
  checkpoint_count : Nat := 0
  parent_session_id : Option Nat := none
  branch_point_checkpoint_id : Option Nat := none
  tool_invocation_count : Nat := 0
  metadata : PyDict := []

/-- `Checkpoint`: a saved state of an internal session. -/
structure Checkpoint where
  id : Option Nat := none
  internal_session_id : Nat := 0
  checkpoint_name : Option String := none
  session_state : PyDict := []
  conversation_history : List PyDict := []
  is_auto : Bool := false
  created_at : Option Nat := none
  metadata : PyDict := []
  user_id : Option Nat := none
  tool_invocations : List PyDict := []

/-- The dictionary produced by `Checkpoint.to_dict` and consumed by
`Checkpoint.from_dict`.  A key read by `from_dict` with `data.get` is an
`Option` field; an absent key and an explicit `None` value read the same
through `data.get`, so the two are identified. -/
structure CheckpointDict where
  id : Option Nat := none
  internal_session_id : Option Nat := none
  checkpoint_name : Option String := none
  session_state : Option PyDict := none
  conversation_history : Option (List PyDict) := none
  is_auto : Option Bool := none
  created_at : Option Nat := none
  metadata : Option PyDict := none
  user_id : Option Nat := none
  tool_invocations : Option (List PyDict) := none

/-- `Checkpoint.to_dict`: every key is written; `created_at` is written
as its isoformat or `None`. -/
def Checkpoint.to_dict (c : Checkpoint) : CheckpointDict :=
  { id := c.id
    internal_session_id := some c.internal_session_id
    checkpoint_name := c.checkpoint_name
    session_state := some c.session_state
    conversation_history := some c.conversation_history
    is_auto := some c.is_auto
    created_at := c.created_at
    metadata := some c.metadata
    user_id := c.user_id
    tool_invocations := some c.tool_invocations }

/-- `Checkpoint.from_dict`: read each key with its `data.get` default. -/
def Checkpoint.from_dict (data : CheckpointDict) : Checkpoint :=
  { id := data.id
    internal_session_id := data.internal_session_id.getD 0
    checkpoint_name := data.checkpoint_name
    session_state := data.session_state.getD []
    conversation_history := data.conversation_history.getD []
    is_auto := data.is_auto.getD false
    metadata := data.metadata.getD []
    user_id := data.user_id
    tool_invocations := data.tool_invocations.getD []
    created_at := data.created_at }

/-- `Checkpoint.from_internal_session`: snapshot an internal session.
`now` is the `datetime.now()` instant; callers guard that the session's
`id` is set, and `internal_session.id.getD 0` stands for that id. -/
def Checkpoint.from_internal_session (internal_session : InternalSession)
    (checkpoint_name : Option String) (is_auto : Bool)
    (user_id : Option Nat) (tool_invocations : Option (List PyDict))
    (now : Nat) : Checkpoint :=
  { internal_session_id := internal_session.id.getD 0
    checkpoint_name := checkpoint_name
    session_state := internal_session.session_state
    conversation_history := internal_session.conversation_history
    is_auto := is_auto
    created_at := some now
    user_id := user_id
    tool_invocations := tool_invocations.getD []
    metadata :=
      [("session_id", .str internal_session.langgraph_session_id),
       ("session_type", .str "langgraph"),
       ("checkpoint_count", .int ((internal_session.checkpoint_count : Int) + 1)),
       ("tool_track_position", .int 0)] }

/-- Python `a or b` over an optional string: `None` and `""` are falsy. -/
def pyOrStr (a : Option String) (b : String) : String :=
  match a with
  | some s => if s = "" then b else s
  | none => b

/-- An `Optional[int]` rendered inside an f-string. -/
def formatOptNat : Option Nat → String
  | some n => toString n
  | none => "None"

/-- `InternalSession.create_branch_from_checkpoint`: a new internal
session branched from a checkpoint.  `now` is the `datetime.now()`
instant and `uuid_hex` the hex digest drawn by `uuid.uuid4()`. -/
def InternalSession.create_branch_from_checkpoint (checkpoint : Checkpoint)
    (external_session_id : Nat) (parent_session_id : Nat)
    (now : Nat) (uuid_hex : String) : InternalSession :=
  { external_session_id := external_session_id
    langgraph_session_id := "langgraph_" ++ uuid_hex.take 12
    session_state := checkpoint.session_state
    conversation_history := checkpoint.conversation_history
    created_at := some now
    is_current := true
    parent_session_id := some parent_session_id
    branch_point_checkpoint_id := checkpoint.id
    metadata :=
      [("branched_from",
        .str (pyOrStr checkpoint.checkpoint_name
          ("Checkpoint " ++ formatOptNat checkpoint.id))),
       ("branch_created_at", .str (toString now)),
       ("session_type", .str "langgraph")] }

/-! ## `agents/rollback_agent.py` -/

/-- The part of a `RollbackAgent`'s state that the automatic checkpoint
node reads: the `auto_checkpoint` flag, the current internal session (or
`None`), and whether a checkpoint repository is configured. -/
structure RollbackAgent where
  auto_checkpoint : Bool
  internal_session : Option InternalSession
  checkpoint_repo : Bool

/-- `RollbackAgent._is_checkpoint_tool`, with the agent's own local copy
of the reserved name set; a `None` tool name is not in it. -/
def RollbackAgent.is_checkpoint_tool (tool_name : Option String) : Bool :=
  match tool_name with
  | some n =>
    ["create_checkpoint", "list_checkpoints", "rollback_to_checkpoint",
     "delete_checkpoint", "get_checkpoint_info",
     "cleanup_auto_checkpoints"].contains n
  | none => false

/-- `RollbackAgent._create_auto_checkpoint`: when a repository is
configured and the internal session has a (truthy) id, build the
checkpoint from the session with `is_auto=True`, record the current
tool-track length in its metadata and hand it to `checkpoint_repo.create`.
Returns the checkpoint created, or `none` when the guard fails. -/
def RollbackAgent.create_auto_checkpoint (agent : RollbackAgent) (name : String)
    (track_length : Nat) (now : Nat) : Option Checkpoint :=
  match agent.internal_session with
  | none => none
  | some s =>
    if agent.checkpoint_repo && pyTruthyOptNat s.id then
      let checkpoint := Checkpoint.from_internal_session s (some name) true none none now
      some { checkpoint with
              metadata := checkpoint.metadata.setKey "tool_track_position"
                (.int (track_length : Int)) }
    else none

/-- `RollbackAgent._checkpoint_node`: each entry of the state's
`tool_invocations` list is abstracted to its `"tool"` value — the only
key the node reads — with `none` for an absent key (read back as
`"unknown"`).  When auto-checkpointing is on and a session exists, look
at the last invocation of the turn; if its tool is not a checkpoint
management tool, create the automatic checkpoint `After <tool>`. -/
def RollbackAgent.checkpoint_node (agent : RollbackAgent)
    (tool_invocations : List (Option String)) (track_length now : Nat) :
    Option Checkpoint :=
  if agent.auto_checkpoint && agent.internal_session.isSome then
    match tool_invocations.getLast? with
    | none => none
    | some last =>
      let tool_name := last.getD "unknown"
      if RollbackAgent.is_checkpoint_tool (some tool_name) then none
      else agent.create_auto_checkpoint ("After " ++ tool_name) track_length now
  else none

/-- The branch-session construction inside `RollbackAgent.from_checkpoint`:
the new internal session is branched from the checkpoint with
`parent_session_id = checkpoint.internal_session_id`. -/
def RollbackAgent.from_checkpoint_branch (checkpoint : Checkpoint)
    (external_session_id : Nat) (now : Nat) (uuid_hex : String) : InternalSession :=
  InternalSession.create_branch_from_checkpoint checkpoint external_session_id
    checkpoint.internal_session_id now uuid_hex

/-! ## `database/repositories/internal_session_repository.py`

The `internal_sessions` table is modelled as the list of stored
`InternalSession` rows together with the next rowid sqlite will hand
out; a stored row has `id = some n`. -/

/-- The `internal_sessions` table. -/
structure SessionDB where
  rows : List InternalSession
  nextId : Nat

/-- The empty database; sqlite rowids start at 1. -/
def SessionDB.empty : SessionDB := ⟨[], 1⟩

/-- The row effect of the unexcluding UPDATE of
`_mark_all_not_current`: clear `is_current` on the rows of the external
session. -/
def clearIfExt (external_session_id : Nat) (r : InternalSession) : InternalSession :=
  if r.external_session_id = external_session_id then { r with is_current := false }
  else r

/-- The row effect of the excluding UPDATE of `_mark_all_not_current`:
clear `is_current` on the rows of the external session other than the
excluded id. -/
def clearIfExtExcept (external_session_id : Nat) (exclude_id : Option Nat)
    (r : InternalSession) : InternalSession :=
  if r.external_session_id = external_session_id ∧ r.id ≠ exclude_id then
    { r with is_current := false }
  else r

/-- `InternalSessionRepository._mark_all_not_current`: clear
`is_current` on every row of the external session, except the excluded
id when one is given.  Python's `if exclude_id:` is a truthiness test,
so `None` and `0` both take the unexcluded branch. -/
def InternalSessionRepository.mark_all_not_current (db : SessionDB)
    (external_session_id : Nat) (exclude_id : Option Nat) : SessionDB :=
  if pyTruthyOptNat exclude_id then
    { db with rows := db.rows.map (clearIfExtExcept external_session_id exclude_id) }
  else
    { db with rows := db.rows.map (clearIfExt external_session_id) }

/-- `InternalSessionRepository.create`: default `created_at` to now,
clear the other current sessions of the same external session when the
new one is current, and insert the row under a fresh id. -/
def InternalSessionRepository.create (db : SessionDB) (session : InternalSession)
    (now : Nat) : SessionDB × InternalSession :=
  let session :=
    if session.created_at = none then { session with created_at := some now }
    else session
  let db :=
    if session.is_current then
      InternalSessionRepository.mark_all_not_current db session.external_session_id none
    else db
  let session := { session with id := some db.nextId }
  ({ db with rows := db.rows ++ [session], nextId := db.nextId + 1 }, session)

/-- The row effect of the UPDATE statement of
`InternalSessionRepository.update`: overwrite the updatable columns of
the row whose id matches — `external_session_id`, `langgraph_session_id`,
`created_at` and the branch columns are not in its SET list. -/
def updateRow (session : InternalSession) (r : InternalSession) : InternalSession :=
  if r.id = session.id then
    { r with
      session_state := session.session_state
      conversation_history := session.conversation_history
      is_current := session.is_current
      checkpoint_count := session.checkpoint_count
      tool_invocation_count := session.tool_invocation_count
      metadata := session.metadata }
  else r

/-- The row effect of the UPDATE statement of `set_current_session`:
set `is_current` on the row whose id matches. -/
def setCurrentRow (session_id : Nat) (r : InternalSession) : InternalSession :=
  if r.id = some session_id then { r with is_current := true } else r

/-- `InternalSessionRepository.update`: refuse a session without a
(truthy) id; when the session is current, clear the other current
sessions of `session.external_session_id` (the ext id of the object
passed in, not of the stored row); then overwrite the updatable columns
of the row with the session's id.  Returns whether a row was updated. -/
def InternalSessionRepository.update (db : SessionDB) (session : InternalSession) :
    SessionDB × Bool :=
  if ¬ pyTruthyOptNat session.id then (db, false)
  else
    let db :=
      if session.is_current then
        InternalSessionRepository.mark_all_not_current db
          session.external_session_id session.id
      else db
    ({ db with rows := db.rows.map (updateRow session) },
     db.rows.any (fun r => r.id == session.id))

/-- `InternalSessionRepository.set_current_session`: look the row up by
id; clear `is_current` across its external session, then set it on the
row. -/
def InternalSessionRepository.set_current_session (db : SessionDB) (session_id : Nat) :
    SessionDB × Bool :=
  match db.rows.find? (fun r => r.id == some session_id) with
  | none => (db, false)
  | some row =>
    let db := InternalSessionRepository.mark_all_not_current db
      row.external_session_id none
    ({ db with rows := db.rows.map (setCurrentRow session_id) }, true)

/-- One repository operation on internal sessions. -/
inductive SessionOp where
  | create (session : InternalSession) (now : Nat)
  | update (session : InternalSession)
  | setCurrent (session_id : Nat)

/-- Apply one repository operation, keeping the database state. -/
def SessionOp.apply (db : SessionDB) : SessionOp → SessionDB
  | .create session now => (InternalSessionRepository.create db session now).1
  | .update session => (InternalSessionRepository.update db session).1
  | .setCurrent session_id =>
    (InternalSessionRepository.set_current_session db session_id).1

/-- Run a sequence of repository operations. -/
def runOps (db : SessionDB) : List SessionOp → SessionDB
  | [] => db
  | op :: rest => runOps (SessionOp.apply db op) rest

/-- The number of rows of an external session marked current. -/
def currentCount (ext : Nat) (db : SessionDB) : Nat :=
  db.rows.countP (fun r => r.external_session_id == ext && r.is_current)

/-- An `update` call is consistent with the database when the session
object's `external_session_id` agrees with the stored row it addresses —
the situation for sessions read back from the repository, whose ext id
the UPDATE statement never changes.  `create` and `set_current_session`
are always consistent. -/
def ConsistentOp (db : SessionDB) : SessionOp → Bool
  | .update session =>
    db.rows.all (fun r =>
      r.id != session.id || r.external_session_id == session.external_session_id)
  | _ => true

/-- Every operation of the run is consistent with the database state it
is applied to. -/
def ConsistentRun (db : SessionDB) : List SessionOp → Bool
  | [] => true
  | op :: rest => ConsistentOp db op && ConsistentRun (SessionOp.apply db op) rest

/-- The structural invariant of the table: `nextId` is positive, every
stored row has a positive id below `nextId`, ids are pairwise distinct,
and every external session has at most one current row. -/
def SessionDB.Inv (db : SessionDB) : Prop :=
  0 < db.nextId ∧
  (∀ r ∈ db.rows, ∃ n, r.id = some n ∧ 0 < n ∧ n < db.nextId) ∧
  (db.rows.map (fun r => r.id)).Nodup ∧
  (∀ ext, currentCount ext db ≤ 1)

/-! ## `auth/user.py` and `auth/auth_service.py` -/

/-- `User`: the authentication model.  `password_hash` holds the hex
digest produced by the hash function. -/
structure User where
  id : Option Nat := none
  username : String := ""
  password_hash : String := ""
  is_admin : Bool := false
  created_at : Option Nat := none
  last_login : Option Nat := none
  active_sessions : List Nat := []
  preferences : PyDict := []
  api_key : Option String := none
  session_limit : Nat := 5
  metadata : PyDict := []

/-- `User.verify_password`: compare the stored hash with the hash of the
candidate.  `hash_password` — `hashlib.sha256(...).hexdigest()` in the
source — is passed in as a function, the library digest being outside
the embedding. -/
def User.verify_password (hash_password : String → String) (u : User)
    (password : String) : Bool :=
  u.password_hash == hash_password password

/-- `User.add_session`: refuse when the active sessions have reached the
limit; otherwise append the id unless it is already present.  Returns
the Python `bool` and the updated user. -/
def User.add_session (u : User) (session_id : Nat) : Bool × User :=
  if u.session_limit ≤ u.active_sessions.length then (false, u)
  else if session_id ∈ u.active_sessions then (true, u)
  else (true, { u with active_sessions := u.active_sessions ++ [session_id] })

/-- The dictionary produced by `User.to_dict` and consumed by
`User.from_dict`.  `to_dict` writes no `password_hash` key, but
`from_dict` reads one, so the dictionary type carries the field with
`none` for an absent key (an absent key and an explicit `None` read the
same through `data.get`). -/
structure UserDict where
  id : Option Nat := none
  username : Option String := none
  password_hash : Option String := none
  is_admin : Option Bool := none
  created_at : Option Nat := none
  last_login : Option Nat := none
  active_sessions : Option (List Nat) := none
  preferences : Option PyDict := none
  api_key : Option String := none
  session_limit : Option Nat := none
  metadata : Option PyDict := none

/-- `User.to_dict`: every key except `password_hash` is written. -/
def User.to_dict (u : User) : UserDict :=
  { id := u.id
    username := some u.username
    is_admin := some u.is_admin
    created_at := u.created_at
    last_login := u.last_login
    active_sessions := some u.active_sessions
    preferences := some u.preferences
    api_key := u.api_key
    session_limit := some u.session_limit
    metadata := some u.metadata }

/-- `User.from_dict`: read each key with its `data.get` default —
`password_hash` defaults to the empty string. -/
def User.from_dict (data : UserDict) : User :=
  { id := data.id
    username := data.username.getD ""
    password_hash := data.password_hash.getD ""
    is_admin := data.is_admin.getD false
    active_sessions := data.active_sessions.getD []
    preferences := data.preferences.getD []
    api_key := data.api_key
    session_limit := data.session_limit.getD 5
    metadata := data.metadata.getD []
    created_at := data.created_at
    last_login := data.last_login }

/-- `UserRepository.find_by_id`, over the list of stored users. -/
def UserRepository.find_by_id (users : List User) (user_id : Nat) : Option User :=
  users.find? (fun u => u.id == some user_id)

/-- `UserRepository.find_by_username`. -/
def UserRepository.find_by_username (users : List User) (username : String) :
    Option User :=
  users.find? (fun u => u.username == username)

/-- `UserRepository.save` for a user that already has an id: overwrite
the stored row with that id. -/
def UserRepository.save (users : List User) (user : User) : List User :=
  users.map (fun u => if u.id = user.id then user else u)

/-- `UserRepository.delete`: remove the rows with the given id; `True`
when a row was deleted. -/
def UserRepository.delete (users : List User) (user_id : Option Nat) :
    List User × Bool :=
  (users.filter (fun u => ¬ u.id == user_id),
   users.any (fun u => u.id == user_id))

/-- `AuthService.add_user_session`: find the user, try `add_session`,
and save on success.  Returns `(success, message)` and the user table. -/
def AuthService.add_user_session (users : List User) (user_id : Nat)
    (session_id : Nat) : (Bool × String) × List User :=
  match UserRepository.find_by_id users user_id with
  | none => ((false, "User not found"), users)
  | some user =>
    match user.add_session session_id with
    | (true, user') =>
      ((true, "Session " ++ toString session_id ++ " added successfully"),
       UserRepository.save users user')
    | (false, _) =>
      ((false, "Cannot add session - limit of " ++ toString user.session_limit ++
        " sessions reached"), users)

/-- `AuthService.delete_user`: require an admin caller; find the target
by username; refuse `rootusr` and self-deletion; then delete.  (The
source has no check that the target is not an admin, although its own
docstring says admins cannot delete other admins.)  Returns
`(success, message)` and the user table. -/
def AuthService.delete_user (users : List User) (admin_user_id : Nat)
    (target_username : String) : (Bool × String) × List User :=
  match UserRepository.find_by_id users admin_user_id with
  | none => ((false, "Admin permission required"), users)
  | some admin =>
    if ¬ admin.is_admin then ((false, "Admin permission required"), users)
    else
      match UserRepository.find_by_username users target_username with
      | none =>
        ((false, "User '" ++ target_username ++ "' not found"), users)
      | some target_user =>
        if target_username = "rootusr" then
          ((false, "Cannot delete the root admin user"), users)
        else if target_user.id = some admin_user_id then
          ((false, "Cannot delete your own account"), users)
        else
          match UserRepository.delete users target_user.id with
          | (users', true) =>
            ((true, "User '" ++ target_username ++ "' deleted successfully"), users')
          | (users', false) =>
            ((false, "Failed to delete user '" ++ target_username ++ "'"), users')

/-! ## Concrete instances used in counterexamples and witnesses -/

/-- A registered tool without a reverse handler whose forward handler
always succeeds. -/
def demoTool : ToolSpec :=
  { name := "demo_tool", forward := fun _ => .ok .null }

/-- A tools dictionary holding only `demoTool`. -/
def demoTools : String → Option ToolSpec :=
  fun n => if n = "demo_tool" then some demoTool else none

/-- One successful invocation of `demoTool`. -/
def demoRecord : ToolInvocationRecord :=
  { tool_name := "demo_tool", args := [], result := .null }

/-- A registry with one registered tool and a one-record track. -/
def demoRegistry : ToolRollbackRegistry :=
  { tools := demoTools, track := [demoRecord] }

/-- A stored internal session with id 1. -/
def demoSession : InternalSession := { id := some 1 }

/-- An agent with auto-checkpointing on, a current internal session and
a checkpoint repository. -/
def demoAgent : RollbackAgent :=
  { auto_checkpoint := true, internal_session := some demoSession,
    checkpoint_repo := true }

/-- A checkpoint of inner session 1, created at instant 10. -/
def demoCheckpoint : Checkpoint :=
  { id := some 7, internal_session_id := 1, created_at := some 10,
    checkpoint_name := some "before change",
    session_state := [("counter", .int 5)],
    conversation_history := [[("role", .str "user"), ("content", .str "hi")]] }

/-- A current session of external session 1. -/
def sessA : InternalSession := { external_session_id := 1, is_current := true }

/-- A non-current session of external session 1. -/
def sessB : InternalSession := { external_session_id := 1, is_current := false }

/-- An update payload addressing row 2 but carrying the wrong external
session id 2. -/
def sessBad : InternalSession :=
  { id := some 2, external_session_id := 2, is_current := true }

/-- The same update payload with the stored row's external session id. -/
def sessGood : InternalSession :=
  { id := some 2, external_session_id := 1, is_current := true }

/-- Create two sessions under external session 1, then apply an update
whose payload misstates the external session id. -/
def badOps : List SessionOp := [.create sessA 0, .create sessB 0, .update sessBad]

/-- The same run with a consistent update payload. -/
def goodOps : List SessionOp := [.create sessA 0, .create sessB 0, .update sessGood]

/-- The root admin. -/
def rootUser : User := { id := some 1, username := "rootusr", is_admin := true }

/-- A second admin. -/
def adminAlice : User := { id := some 2, username := "alice", is_admin := true }

/-- A third admin. -/
def adminBob : User := { id := some 3, username := "bob", is_admin := true }

/-- A user table with three admins. -/
def demoUsers : List User := [rootUser, adminAlice, adminBob]

/-- A user at her session limit of 2, with both slots used. -/
def limitedUser : User :=
  { id := some 4, username := "carol", active_sessions := [10, 20],
    session_limit := 2 }

/-- A user below the default session limit. -/
def freeUser : User :=
  { id := some 5, username := "dave", active_sessions := [30] }

/-! ## Theorems -/

/-- The rollback loop is append-of-filterMap of the per-record spec. -/
theorem rollbackLoop_eq_filterMap (tools : String → Option ToolSpec)
    (l : List ToolInvocationRecord) (acc : List ReverseInvocationResult) :
    rollbackLoop tools l acc = acc ++ l.filterMap (rollbackRecordSpec tools) := by
  induction l generalizing acc with
  | nil => simp [rollbackLoop]
  | cons r rest ih =>
    by_cases hres : r.tool_name ∈ CHECKPOINT_TOOL_NAMES
    · simp [rollbackLoop, rollbackRecordSpec, hres, ih]
    · cases hspec : tools r.tool_name with
      | none => simp [rollbackLoop, rollbackRecordSpec, hres, hspec, ih]
      | some spec =>
        cases hrev : spec.reverse with
        | none => simp [rollbackLoop, rollbackRecordSpec, hres, hspec, hrev, ih]
        | some rev =>
          cases hrun : rev r.args r.result with
          | ok v => simp [rollbackLoop, rollbackRecordSpec, hres, hspec, hrev, hrun, ih]
          | error e => simp [rollbackLoop, rollbackRecordSpec, hres, hspec, hrev, hrun, ih]

/-- The redo loop is append-of-filterMap of the per-record spec. -/
theorem redoLoop_eq_filterMap (tools : String → Option ToolSpec)
    (l : List ToolInvocationRecord) (acc : List ToolInvocationRecord) :
    redoLoop tools l acc = acc ++ l.filterMap (redoRecordSpec tools) := by
  induction l generalizing acc with
  | nil => simp [redoLoop]
  | cons r rest ih =>
    cases hspec : tools r.tool_name with
    | none => simp [redoLoop, redoRecordSpec, hspec, ih]
    | some spec =>
      cases hrun : spec.forward r.args with
      | ok v => simp [redoLoop, redoRecordSpec, hspec, hrun, ih]
      | error e => simp [redoLoop, redoRecordSpec, hspec, hrun, ih]

/-- A `filterMap` keeps the length when the function hits on every
element. -/
theorem length_filterMap_of_isSome {α β : Type} (f : α → Option β) (l : List α)
    (h : ∀ a ∈ l, (f a).isSome) : (l.filterMap f).length = l.length := by
  induction l with
  | nil => rfl
  | cons a rest ih =>
    have ha := h a (by simp)
    cases hfa : f a with
    | none => rw [hfa] at ha; simp at ha
    | some b =>
      rw [List.filterMap_cons, hfa]
      simp only [List.length_cons]
      rw [ih (fun x hx => h x (by simp [hx]))]

/-- C1: `Rollback()` walks the recorded track in reverse order and maps
each record through the per-record reverse step `rollbackRecordSpec`:
records with reserved checkpoint-tool names contribute no result; a
record with no registered reverse handler contributes a failure with
message "No reverse handler registered"; a record whose reverse handler
raises contributes a failure with the exception message; otherwise the
handler is invoked with `(args, result)` and the record contributes a
success.  After the walk the track is empty. -/
theorem C1_rollback_reverse_walk (st : ToolRollbackRegistry) :
    st.rollback.2.track = [] ∧
    st.rollback.1 = st.track.reverse.filterMap (rollbackRecordSpec st.tools) ∧
    (∀ r : ToolInvocationRecord, r.tool_name ∈ CHECKPOINT_TOOL_NAMES →
      rollbackRecordSpec st.tools r = none) ∧
    (∀ r : ToolInvocationRecord, r.tool_name ∉ CHECKPOINT_TOOL_NAMES →
      (st.tools r.tool_name).bind ToolSpec.reverse = none →
      rollbackRecordSpec st.tools r =
        some ⟨r.tool_name, false, some "No reverse handler registered"⟩) ∧
    (∀ r : ToolInvocationRecord, ∀ spec rev,
      r.tool_name ∉ CHECKPOINT_TOOL_NAMES →
      st.tools r.tool_name = some spec → spec.reverse = some rev →
      (∀ v, rev r.args r.result = .ok v →
        rollbackRecordSpec st.tools r = some ⟨r.tool_name, true, none⟩) ∧
      (∀ e, rev r.args r.result = .error e →
        rollbackRecordSpec st.tools r = some ⟨r.tool_name, false, some e⟩)) := by
  refine ⟨rfl, rollbackLoop_eq_filterMap st.tools st.track.reverse [], ?_, ?_, ?_⟩
  · intro r hres
    simp [rollbackRecordSpec, hres]
  · intro r hres hnone
    cases hspec : st.tools r.tool_name with
    | none => simp [rollbackRecordSpec, hres, hspec]
    | some spec =>
      rw [hspec, Option.some_bind] at hnone
      simp [rollbackRecordSpec, hres, hspec, hnone]
  · intro r spec rev hres hspec hrev
    constructor
    · intro v hv
      simp [rollbackRecordSpec, hres, hspec, hrev, hv]
    · intro e he
      simp [rollbackRecordSpec, hres, hspec, hrev, he]

/-- Witness for C1 on the concrete one-record registry: the walk
produces the no-reverse-handler failure and clears the track. -/
theorem C1_rollback_reverse_walk_witness :
    demoRegistry.rollback.2.track = [] ∧
    demoRegistry.rollback.1 =
      [⟨"demo_tool", false, some "No reverse handler registered"⟩] := by
  have h := C1_rollback_reverse_walk demoRegistry
  exact ⟨h.1, by rw [h.2.1]; rfl⟩

/-- C5 counterexample: on a one-record track, positions outside
`[0, len]` do not fail — `truncate_track(2)` returns normally leaving
the track unchanged, and `truncate_track(-5)` returns normally emptying
it; the method performs no range check at all. -/
theorem C5_truncate_out_of_range_returns :
    demoRegistry.track.length = 1 ∧
    (demoRegistry.truncate_track 2).track = demoRegistry.track ∧
    (demoRegistry.truncate_track (-5)).track = [] :=
  ⟨rfl, rfl, rfl⟩

/-- C5 (amended): for `0 ≤ position ≤ len`, `truncate_track(position)`
retains exactly the records at indices `[0, position)`; in particular
`truncate_track(len)` is a no-op and `truncate_track(0)` empties the
track.  Out-of-range positions do not raise: a position above `len` is a
no-op, and a negative position retains the first `max(0, len+position)`
records, following Python slice semantics. -/
theorem C5_truncate_track_amended (st : ToolRollbackRegistry) (position : Int)
    (h0 : 0 ≤ position) (hlen : position ≤ (st.track.length : Int)) :
    (st.truncate_track position).track = st.track.take position.toNat ∧
    (st.truncate_track position).track.length = position.toNat ∧
    (st.truncate_track (st.track.length : Int)).track = st.track ∧
    (st.truncate_track 0).track = [] ∧
    (∀ q : Int, (st.track.length : Int) ≤ q → (st.truncate_track q).track = st.track) ∧
    (∀ q : Int, q < 0 →
      (st.truncate_track q).track =
        st.track.take ((st.track.length : Int) + q).toNat) := by
  refine ⟨?_, ?_, ?_, ?_, ?_, ?_⟩
  · simp [ToolRollbackRegistry.truncate_track, h0]
  · have hle : position.toNat ≤ st.track.length := by omega
    simp [ToolRollbackRegistry.truncate_track, h0, List.length_take]
    omega
  · simp [ToolRollbackRegistry.truncate_track]
  · simp [ToolRollbackRegistry.truncate_track]
  · intro q hq
    have h0q : (0 : Int) ≤ q := le_trans (by positivity) hq
    have hlq : st.track.length ≤ q.toNat := by omega
    simp [ToolRollbackRegistry.truncate_track, h0q, List.take_of_length_le hlq]
  · intro q hq
    have : ¬ (0 : Int) ≤ q := by omega
    simp [ToolRollbackRegistry.truncate_track, this]

/-- Witness for C5 on the concrete one-record registry at position 1. -/
theorem C5_truncate_track_amended_witness :
    ((0 : Int) ≤ 1 ∧ (1 : Int) ≤ (demoRegistry.track.length : Int)) ∧
    (demoRegistry.truncate_track 1).track = demoRegistry.track.take 1 :=
  ⟨⟨by decide, by decide⟩,
   (C5_truncate_track_amended demoRegistry 1 (by decide) (by decide)).1⟩

/-- C6 counterexample: with one registered tool whose forward handler
succeeds and a one-record track, `Rollback()` empties the track, so the
immediately following `Redo()` re-invokes nothing: the track afterwards
has length 0, not the pre-rollback length 1. -/
theorem C6_redo_after_rollback_is_empty :
    demoRegistry.track.length = 1 ∧
    demoRegistry.rollback.2.redo.2.track.length = 0 ∧
    demoRegistry.rollback.2.redo.2.track.length ≠ demoRegistry.track.length := by
  exact ⟨rfl, rfl, by decide⟩

/-- C6 (amended): `Rollback()` clears the track, so a `Redo()`
immediately after it re-invokes nothing and leaves an empty track.
`Redo()` itself drains the current track and, for each prior record
whose tool has a registered forward handler, re-invokes `forward(args)`
and appends a new record (success or failure), preserving the original
order; records of unregistered tools are dropped.  When every recorded
tool is registered — the hypothesis — the new track keeps the old
length, whether or not forward re-invocations fail. -/
theorem C6_redo_drains_track (st : ToolRollbackRegistry)
    (hreg : ∀ r ∈ st.track, (st.tools r.tool_name).isSome) :
    st.redo.2.track = st.redo.1 ∧
    st.redo.1 = st.track.filterMap (redoRecordSpec st.tools) ∧
    st.redo.1.length = st.track.length ∧
    st.rollback.2.redo.2.track = [] := by
  have hfm : st.redo.1 = st.track.filterMap (redoRecordSpec st.tools) :=
    redoLoop_eq_filterMap st.tools st.track []
  refine ⟨rfl, hfm, ?_, rfl⟩
  rw [hfm]
  refine length_filterMap_of_isSome _ _ (fun r hr => ?_)
  have := hreg r hr
  cases hspec : st.tools r.tool_name with
  | none => rw [hspec] at this; simp at this
  | some spec =>
    cases hrun : spec.forward r.args with
    | ok v => simp [redoRecordSpec, hspec, hrun]
    | error e => simp [redoRecordSpec, hspec, hrun]

/-- Witness for C6 on the concrete one-record registry, whose only tool
is registered. -/
theorem C6_redo_drains_track_witness :
    (∀ r ∈ demoRegistry.track, (demoRegistry.tools r.tool_name).isSome) ∧
    demoRegistry.redo.1.length = demoRegistry.track.length ∧
    demoRegistry.rollback.2.redo.2.track = [] := by
  refine ⟨by decide, ?_⟩
  have h := C6_redo_drains_track demoRegistry (by decide)
  exact ⟨h.2.2.1, h.2.2.2⟩

/-- C7: serializing a checkpoint with `to_dict` and deserializing with
`from_dict` restores `session_state`, `conversation_history`,
`tool_invocations`, `is_auto` and `metadata` unchanged. -/
theorem C7_checkpoint_roundtrip (c : Checkpoint) :
    (Checkpoint.from_dict (Checkpoint.to_dict c)).session_state = c.session_state ∧
    (Checkpoint.from_dict (Checkpoint.to_dict c)).conversation_history =
      c.conversation_history ∧
    (Checkpoint.from_dict (Checkpoint.to_dict c)).tool_invocations =
      c.tool_invocations ∧
    (Checkpoint.from_dict (Checkpoint.to_dict c)).is_auto = c.is_auto ∧
    (Checkpoint.from_dict (Checkpoint.to_dict c)).metadata = c.metadata :=
  ⟨rfl, rfl, rfl, rfl, rfl⟩

/-- C3: the inner session B built by branching from checkpoint C — as
`RollbackAgent.from_checkpoint` does, passing
`parent_session_id = C.internal_session_id` to
`InternalSession.create_branch_from_checkpoint` — satisfies at
creation: B is created at the branching instant `now`, which is strictly
later than C's creation instant (the wall clock having advanced); B's
state and transcript equal C's snapshots; B's parent inner session is
C's inner session; B's branch point is C's id; and B is current. -/
theorem C3_branch_session_properties (cp : Checkpoint) (ext now : Nat)
    (uuid_hex : String) (t : Nat)
    (hc : cp.created_at = some t) (hlt : t < now) :
    (RollbackAgent.from_checkpoint_branch cp ext now uuid_hex).created_at =
      some now ∧
    (∃ u v, cp.created_at = some u ∧
      (RollbackAgent.from_checkpoint_branch cp ext now uuid_hex).created_at =
        some v ∧ u < v) ∧
    (RollbackAgent.from_checkpoint_branch cp ext now uuid_hex).session_state =
      cp.session_state ∧
    (RollbackAgent.from_checkpoint_branch cp ext now uuid_hex).conversation_history =
      cp.conversation_history ∧
    (RollbackAgent.from_checkpoint_branch cp ext now uuid_hex).parent_session_id =
      some cp.internal_session_id ∧
    (RollbackAgent.from_checkpoint_branch cp ext now uuid_hex).branch_point_checkpoint_id =
      cp.id ∧
    (RollbackAgent.from_checkpoint_branch cp ext now uuid_hex).is_current = true :=
  ⟨rfl, ⟨t, now, hc, rfl, hlt⟩, rfl, rfl, rfl, rfl, rfl⟩

/-- Witness for C3 on the concrete checkpoint created at instant 10,
branched at instant 11. -/
theorem C3_branch_session_properties_witness :
    (demoCheckpoint.created_at = some 10 ∧ (10 : Nat) < 11) ∧
    ((RollbackAgent.from_checkpoint_branch demoCheckpoint 1 11 "abcdef").session_state =
        demoCheckpoint.session_state ∧
      (RollbackAgent.from_checkpoint_branch demoCheckpoint 1 11 "abcdef").parent_session_id =
        some demoCheckpoint.internal_session_id ∧
      (RollbackAgent.from_checkpoint_branch demoCheckpoint 1 11 "abcdef").is_current =
        true) := by
  have h := C3_branch_session_properties demoCheckpoint 1 11 "abcdef" 10 rfl
    (by decide)
  exact ⟨⟨rfl, by decide⟩, h.2.2.1, h.2.2.2.2.1, h.2.2.2.2.2.2⟩

/-- C2 counterexample: a turn that executed the non-reserved tool
"calculator" and then the reserved tool "create_checkpoint" creates no
automatic checkpoint — the node only inspects the last invocation of
the turn — although auto-checkpointing is on, a session and a
repository are present, and a non-reserved tool ran. -/
theorem C2_mixed_turn_creates_no_checkpoint :
    demoAgent.auto_checkpoint = true ∧
    demoAgent.checkpoint_repo = true ∧
    RollbackAgent.is_checkpoint_tool (some "calculator") = false ∧
    RollbackAgent.checkpoint_node demoAgent
      [some "calculator", some "create_checkpoint"] 0 5 = none :=
  ⟨rfl, rfl, rfl, rfl⟩

/-- C2 (amended): when `auto_checkpoint` is enabled, an internal session
with a stored id and a checkpoint repository are present, and the LAST
tool executed this turn is not a reserved checkpoint-management tool,
the checkpoint node creates an automatic checkpoint named
`After <last_tool_name>` with `is_auto=true`; and a turn in which every
executed tool (in particular the last) is a reserved
checkpoint-management tool creates no automatic checkpoint. -/
theorem C2_auto_checkpoint_after_last_tool (agent : RollbackAgent)
    (s : InternalSession) (invs : List (Option String)) (last : Option String)
    (track_length now : Nat)
    (hauto : agent.auto_checkpoint = true)
    (hsess : agent.internal_session = some s)
    (hrepo : agent.checkpoint_repo = true)
    (hid : pyTruthyOptNat s.id = true)
    (hlast : invs.getLast? = some last)
    (hres : RollbackAgent.is_checkpoint_tool (some (last.getD "unknown")) = false) :
    (∃ cp, RollbackAgent.checkpoint_node agent invs track_length now = some cp ∧
      cp.checkpoint_name = some ("After " ++ last.getD "unknown") ∧
      cp.is_auto = true) ∧
    (∀ invs' : List (Option String),
      (∀ i ∈ invs',
        RollbackAgent.is_checkpoint_tool (some (i.getD "unknown")) = true) →
      RollbackAgent.checkpoint_node agent invs' track_length now = none) := by
  constructor
  · refine ⟨{ Checkpoint.from_internal_session s
        (some ("After " ++ last.getD "unknown")) true none none now with
        metadata := (Checkpoint.from_internal_session s
          (some ("After " ++ last.getD "unknown")) true none none now).metadata.setKey
          "tool_track_position" (.int (track_length : Int)) }, ?_, rfl, rfl⟩
    simp [RollbackAgent.checkpoint_node, hauto, hsess, hlast, hres,
      RollbackAgent.create_auto_checkpoint, hrepo, hid]
  · intro invs' hall
    cases hlast' : invs'.getLast? with
    | none =>
      simp [RollbackAgent.checkpoint_node, hauto, hsess, hlast']
    | some last' =>
      have hmem := List.mem_of_mem_getLast? hlast'
      have hres' := hall last' hmem
      simp [RollbackAgent.checkpoint_node, hauto, hsess, hlast', hres']

/-- Witness for C2 on the concrete agent: a turn ending in the
non-reserved tool "calculator" creates the auto checkpoint named
"After calculator". -/
theorem C2_auto_checkpoint_after_last_tool_witness :
    (demoAgent.auto_checkpoint = true ∧
      demoAgent.internal_session = some demoSession ∧
      demoAgent.checkpoint_repo = true ∧
      pyTruthyOptNat demoSession.id = true ∧
      [some "calculator"].getLast? = some (some "calculator") ∧
      RollbackAgent.is_checkpoint_tool (some "calculator") = false) ∧
    (∃ cp, RollbackAgent.checkpoint_node demoAgent [some "calculator"] 0 5 =
        some cp ∧
      cp.checkpoint_name = some "After calculator" ∧ cp.is_auto = true) := by
  refine ⟨⟨rfl, rfl, rfl, rfl, rfl, rfl⟩, ?_⟩
  exact (C2_auto_checkpoint_after_last_tool demoAgent demoSession
    [some "calculator"] (some "calculator") 0 5 rfl rfl rfl rfl rfl rfl).1

/-- C9: adding a session fails exactly when the active sessions have
reached the user's `session_limit`; the service then returns
`Cannot add session - limit of <limit> sessions reached` and leaves the
user table unchanged.  The limit check precedes the membership check, so
the failure occurs even when the session id is already active.  A
successful add never introduces a duplicate session id and never grows
the active set beyond the limit. -/
theorem C9_session_limit (users : List User) (user_id session_id : Nat)
    (u : User) (hfind : UserRepository.find_by_id users user_id = some u) :
    ((u.add_session session_id).1 = false ↔
      u.session_limit ≤ u.active_sessions.length) ∧
    (u.session_limit ≤ u.active_sessions.length →
      AuthService.add_user_session users user_id session_id =
        ((false, "Cannot add session - limit of " ++ toString u.session_limit ++
          " sessions reached"), users)) ∧
    ((u.add_session session_id).1 = true → u.active_sessions.Nodup →
      (u.add_session session_id).2.active_sessions.Nodup) ∧
    ((u.add_session session_id).1 = true →
      (u.add_session session_id).2.active_sessions.length ≤ u.session_limit) := by
  have hiff : (u.add_session session_id).1 = false ↔
      u.session_limit ≤ u.active_sessions.length := by
    by_cases hlim : u.session_limit ≤ u.active_sessions.length
    · simp [User.add_session, hlim]
    · by_cases hmem : session_id ∈ u.active_sessions <;>
        simp [User.add_session, hlim, hmem]
  refine ⟨hiff, ?_, ?_, ?_⟩
  · intro hlim
    have hadd : u.add_session session_id = (false, u) := by
      simp [User.add_session, hlim]
    simp [AuthService.add_user_session, hfind, hadd]
  · intro hok hnodup
    by_cases hlim : u.session_limit ≤ u.active_sessions.length
    · simp [hiff.mpr hlim] at hok
    · by_cases hmem : session_id ∈ u.active_sessions
      · simpa [User.add_session, hlim, hmem] using hnodup
      · have : (u.add_session session_id).2.active_sessions =
            u.active_sessions ++ [session_id] := by
          simp [User.add_session, hlim, hmem]
        rw [this]
        simp [List.nodup_append, hnodup, hmem]
  · intro hok
    by_cases hlim : u.session_limit ≤ u.active_sessions.length
    · simp [hiff.mpr hlim] at hok
    · by_cases hmem : session_id ∈ u.active_sessions
      · have : (u.add_session session_id).2.active_sessions =
            u.active_sessions := by
          simp [User.add_session, hlim, hmem]
        rw [this]; omega
      · have : (u.add_session session_id).2.active_sessions =
            u.active_sessions ++ [session_id] := by
          simp [User.add_session, hlim, hmem]
        rw [this]; simp; omega

/-- Witness for C9: a user with `session_limit=2` and two active
sessions gets the limit message, even for a session id already in the
active set. -/
theorem C9_session_limit_witness :
    (UserRepository.find_by_id [limitedUser] 4 = some limitedUser ∧
      limitedUser.session_limit ≤ limitedUser.active_sessions.length ∧
      (10 : Nat) ∈ limitedUser.active_sessions) ∧
    AuthService.add_user_session [limitedUser] 4 10 =
      ((false, "Cannot add session - limit of 2 sessions reached"),
       [limitedUser]) := by
  refine ⟨⟨rfl, by decide, by decide⟩, ?_⟩
  exact (C9_session_limit [limitedUser] 4 10 limitedUser rfl).2.1 (by decide)

/-- C10: `User.to_dict` writes no `password_hash` key, so the
round-trip `from_dict (to_dict u)` yields a user whose `password_hash`
is the empty string; hence for every password whose hash digest is
non-empty, `verify_password` on the round-tripped user returns false. -/
theorem C10_roundtrip_loses_password_hash (u : User) :
    (User.from_dict (User.to_dict u)).password_hash = "" ∧
    (∀ (hash_password : String → String) (p : String),
      hash_password p ≠ "" →
      User.verify_password hash_password (User.from_dict (User.to_dict u)) p =
        false) := by
  refine ⟨rfl, fun hash_password p hne => ?_⟩
  have hfield : (User.from_dict (User.to_dict u)).password_hash = "" := rfl
  simp only [User.verify_password, hfield]
  rw [beq_eq_false_iff_ne]
  exact fun h => hne h.symm

/-- Witness for C10: a concrete user, a hash function with a non-empty
digest, and a concrete password. -/
theorem C10_roundtrip_loses_password_hash_witness :
    ((fun _ : String => "2bb80d5") "pw" ≠ "" ∧
      freeUser.password_hash = "") ∧
    User.verify_password (fun _ => "2bb80d5")
      (User.from_dict (User.to_dict freeUser)) "pw" = false := by
  refine ⟨⟨by decide, rfl⟩, ?_⟩
  exact (C10_roundtrip_loses_password_hash freeUser).2 (fun _ => "2bb80d5") "pw"
    (by decide)

/-- C8: the deviation from the claim — with three admins rootusr (id 1),
alice (id 2) and bob (id 3), alice's request to delete fellow admin bob
succeeds and removes bob, although the claim (and the method's own
docstring, "Admin users cannot delete themselves or other admins")
requires it to be refused; the guards that are implemented — admin
caller, rootusr protection, self-deletion protection — do refuse. -/
theorem C8_admin_deletes_admin :
    adminBob.is_admin = true ∧
    AuthService.delete_user demoUsers 2 "bob" =
      ((true, "User 'bob' deleted successfully"), [rootUser, adminAlice]) ∧
    AuthService.delete_user demoUsers 2 "rootusr" =
      ((false, "Cannot delete the root admin user"), demoUsers) ∧
    AuthService.delete_user demoUsers 2 "alice" =
      ((false, "Cannot delete your own account"), demoUsers) ∧
    AuthService.delete_user demoUsers 3 "alice" =
      ((true, "User 'alice' deleted successfully"), [rootUser, adminBob]) :=
  ⟨rfl, rfl, rfl, rfl, rfl⟩

/-- `clearIfExt` keeps the row's id. -/
theorem clearIfExt_id (E : Nat) (r : InternalSession) :
    (clearIfExt E r).id = r.id := by
  unfold clearIfExt; split <;> rfl

/-- `clearIfExt` keeps the row's external session. -/
theorem clearIfExt_ext (E : Nat) (r : InternalSession) :
    (clearIfExt E r).external_session_id = r.external_session_id := by
  unfold clearIfExt; split <;> rfl

/-- `clearIfExtExcept` keeps the row's id. -/
theorem clearIfExtExcept_id (E : Nat) (e : Option Nat) (r : InternalSession) :
    (clearIfExtExcept E e r).id = r.id := by
  unfold clearIfExtExcept; split <;> rfl

/-- `clearIfExtExcept` keeps the row's external session. -/
theorem clearIfExtExcept_ext (E : Nat) (e : Option Nat) (r : InternalSession) :
    (clearIfExtExcept E e r).external_session_id = r.external_session_id := by
  unfold clearIfExtExcept; split <;> rfl

/-- `updateRow` keeps the row's id. -/
theorem updateRow_id (s r : InternalSession) : (updateRow s r).id = r.id := by
  unfold updateRow; split <;> rfl

/-- `updateRow` keeps the row's external session. -/
theorem updateRow_ext (s r : InternalSession) :
    (updateRow s r).external_session_id = r.external_session_id := by
  unfold updateRow; split <;> rfl

/-- `setCurrentRow` keeps the row's id. -/
theorem setCurrentRow_id (sid : Nat) (r : InternalSession) :
    (setCurrentRow sid r).id = r.id := by
  unfold setCurrentRow; split <;> rfl

/-- `setCurrentRow` keeps the row's external session. -/
theorem setCurrentRow_ext (sid : Nat) (r : InternalSession) :
    (setCurrentRow sid r).external_session_id = r.external_session_id := by
  unfold setCurrentRow; split <;> rfl

/-- Mapping an id-preserving row function leaves the id list as is. -/
theorem map_ids_eq {f : InternalSession → InternalSession}
    (hf : ∀ r, (f r).id = r.id) (rows : List InternalSession) :
    (rows.map f).map (fun r => r.id) = rows.map (fun r => r.id) := by
  rw [List.map_map]
  exact List.map_congr_left (fun r _ => hf r)

/-- With pairwise-distinct ids, at most one row matches a given id. -/
theorem countP_id_le_one (rows : List InternalSession) (x : Option Nat)
    (h : (rows.map (fun r => r.id)).Nodup) :
    rows.countP (fun r => r.id == x) ≤ 1 := by
  induction rows with
  | nil => simp
  | cons r rest ih =>
    rw [List.map_cons, List.nodup_cons] at h
    rw [List.countP_cons]
    by_cases hr : r.id = x
    · have hzero : rest.countP (fun s => s.id == x) = 0 := by
        rw [List.countP_eq_zero]
        intro s hs hbeq
        have hsx : s.id = x := by simpa using hbeq
        have hmem : s.id ∈ rest.map (fun r => r.id) := List.mem_map_of_mem _ hs
        rw [hsx, ← hr] at hmem
        exact h.1 hmem
      simp [hzero, hr]
    · have hfalse : (r.id == x) = false := by simpa using hr
      simp only [hfalse, Bool.false_eq_true, if_false, Nat.add_zero]
      exact ih h.2

/-- `currentCount` after the unexcluding `_mark_all_not_current`: zero
for the cleared external session, unchanged elsewhere. -/
theorem currentCount_mark_none (db : SessionDB) (E ext : Nat) :
    currentCount ext (InternalSessionRepository.mark_all_not_current db E none) =
      if ext = E then 0 else currentCount ext db := by
  have hfalse : pyTruthyOptNat none = false := rfl
  unfold currentCount InternalSessionRepository.mark_all_not_current
  rw [hfalse]
  simp only [Bool.false_eq_true, if_false, List.countP_map]
  by_cases hE : ext = E
  · subst hE
    rw [if_pos rfl, List.countP_eq_zero]
    intro r _
    by_cases hr : r.external_session_id = ext <;>
      simp [Function.comp, clearIfExt, hr]
  · rw [if_neg hE]
    apply List.countP_congr
    intro r _
    by_cases hr : r.external_session_id = E
    · have h1 : (E == ext) = false := beq_eq_false_iff_ne.mpr (fun h => hE h.symm)
      simp [Function.comp, clearIfExt, hr, h1]
    · simp [Function.comp, clearIfExt, hr]

/-- The unexcluding `_mark_all_not_current` maps `clearIfExt` over the
rows. -/
theorem mark_none_rows (db : SessionDB) (E : Nat) :
    (InternalSessionRepository.mark_all_not_current db E none).rows =
      db.rows.map (clearIfExt E) := rfl

/-- The unexcluding `_mark_all_not_current` keeps `nextId`. -/
theorem mark_none_nextId (db : SessionDB) (E : Nat) :
    (InternalSessionRepository.mark_all_not_current db E none).nextId =
      db.nextId := rfl

/-- A fresh id is not among the stored ids. -/
theorem fresh_id_not_mem (rows : List InternalSession) (n : Nat)
    (hbound : ∀ r ∈ rows, ∃ m, r.id = some m ∧ 0 < m ∧ m < n) :
    some n ∉ rows.map (fun r => r.id) := by
  intro hmem
  obtain ⟨r, hr, hid⟩ := List.mem_map.mp hmem
  obtain ⟨m, hm, _, hlt⟩ := hbound r hr
  rw [hm] at hid
  exact absurd (Option.some.inj hid) (by omega)

/-- The unexcluding `_mark_all_not_current` preserves the table
invariant. -/
theorem inv_mark_none (db : SessionDB) (E : Nat) (h : db.Inv) :
    (InternalSessionRepository.mark_all_not_current db E none).Inv := by
  obtain ⟨hpos, hbound, hnodup, hcount⟩ := h
  refine ⟨by rw [mark_none_nextId]; exact hpos, ?_, ?_, ?_⟩
  · intro r hr
    rw [mark_none_rows] at hr
    rw [mark_none_nextId]
    obtain ⟨r0, hr0, rfl⟩ := List.mem_map.mp hr
    obtain ⟨m, hm, hp, hlt⟩ := hbound r0 hr0
    exact ⟨m, by rw [clearIfExt_id]; exact hm, hp, hlt⟩
  · rw [mark_none_rows, map_ids_eq (clearIfExt_id _)]
    exact hnodup
  · intro ext
    rw [currentCount_mark_none]
    by_cases hE : ext = E
    · rw [if_pos hE]; omega
    · rw [if_neg hE]; exact hcount ext

/-- Appending a fresh-id row preserves the invariant, provided the new
row is not current or its external session has no current row. -/
theorem inv_append (db : SessionDB) (s2 : InternalSession)
    (h : db.Inv) (hid : s2.id = some db.nextId)
    (hcond : s2.is_current = false ∨
      currentCount s2.external_session_id db = 0) :
    SessionDB.Inv { rows := db.rows ++ [s2], nextId := db.nextId + 1 } := by
  obtain ⟨hpos, hbound, hnodup, hcount⟩ := h
  refine ⟨?_, ?_, ?_, ?_⟩
  · show 0 < db.nextId + 1
    omega
  · intro r hr
    replace hr : r ∈ db.rows ++ [s2] := hr
    show ∃ n, r.id = some n ∧ 0 < n ∧ n < db.nextId + 1
    rcases List.mem_append.mp hr with hmem | hmem
    · obtain ⟨m, hm, hp, hlt⟩ := hbound r hmem
      exact ⟨m, hm, hp, by omega⟩
    · rw [List.mem_singleton.mp hmem]
      exact ⟨db.nextId, hid, hpos, by omega⟩
  · show (List.map (fun r => r.id) (db.rows ++ [s2])).Nodup
    rw [List.map_append, List.map_singleton]
    simp only [List.nodup_append, List.nodup_singleton, true_and]
    refine ⟨hnodup, ?_⟩
    intro x hx
    simp only [List.mem_singleton]
    intro hxid
    rw [hxid, hid] at hx
    exact fresh_id_not_mem db.rows db.nextId hbound hx
  · intro ext
    show List.countP _ (db.rows ++ [s2]) ≤ 1
    rw [List.countP_append, List.countP_singleton]
    have hcdb := hcount ext
    unfold currentCount at hcdb
    rcases hcond with hnc | hzero
    · simp only [hnc, Bool.and_false, Bool.false_eq_true, if_false]
      omega
    · by_cases hext : s2.external_session_id = ext
      · have hz : List.countP
            (fun r => r.external_session_id == ext && r.is_current) db.rows = 0 := by
          rw [← hext]
          exact hzero
        have hif : (if (s2.external_session_id == ext && s2.is_current) = true
            then 1 else 0) ≤ 1 := by
          split <;> omega
        omega
      · have hbeq : (s2.external_session_id == ext) = false :=
          beq_eq_false_iff_ne.mpr hext
        simp only [hbeq, Bool.false_and, Bool.false_eq_true, if_false]
        omega

/-- `InternalSessionRepository.create` preserves the table invariant. -/
theorem inv_create (db : SessionDB) (s : InternalSession) (now : Nat)
    (h : db.Inv) : (InternalSessionRepository.create db s now).1.Inv := by
  by_cases hca : s.created_at = none <;> by_cases hcur : s.is_current = true
  · simp [InternalSessionRepository.create, hca, hcur]
    refine inv_append _ _ (inv_mark_none db s.external_session_id h) rfl
      (Or.inr ?_)
    rw [currentCount_mark_none]
    simp
  · have hnc : s.is_current = false := by
      cases hb : s.is_current
      · rfl
      · exact absurd hb hcur
    simp [InternalSessionRepository.create, hca, hnc]
    exact inv_append _ _ h rfl (Or.inl rfl)
  · simp [InternalSessionRepository.create, hca, hcur]
    refine inv_append _ _ (inv_mark_none db s.external_session_id h) rfl
      (Or.inr ?_)
    rw [currentCount_mark_none]
    simp
  · have hnc : s.is_current = false := by
      cases hb : s.is_current
      · rfl
      · exact absurd hb hcur
    simp [InternalSessionRepository.create, hca, hnc]
    exact inv_append _ _ h rfl (Or.inl rfl)

/-- `InternalSessionRepository.update` preserves the table invariant
when the update payload is consistent with the stored row it
addresses. -/
theorem inv_update (db : SessionDB) (s : InternalSession)
    (h : db.Inv) (hcons : ConsistentOp db (.update s) = true) :
    (InternalSessionRepository.update db s).1.Inv := by
  obtain ⟨hpos, hbound, hnodup, hcount⟩ := h
  have hcons' : db.rows.all (fun r =>
      r.id != s.id || r.external_session_id == s.external_session_id) = true := hcons
  have hconsE : ∀ r ∈ db.rows, r.id = s.id →
      r.external_session_id = s.external_session_id := by
    intro r hr hid
    have hall := List.all_eq_true.mp hcons' r hr
    rcases (Bool.or_eq_true _ _).mp hall with hne | heq
    · exact absurd hid (bne_iff_ne.mp hne)
    · exact beq_iff_eq.mp heq
  by_cases htr : pyTruthyOptNat s.id = true
  case neg =>
    have hres : (InternalSessionRepository.update db s).1 = db := by
      simp [InternalSessionRepository.update, htr]
    rw [hres]
    exact ⟨hpos, hbound, hnodup, hcount⟩
  case pos =>
    obtain ⟨e, he, hne⟩ : ∃ e, s.id = some e ∧ e ≠ 0 := by
      cases hid : s.id with
      | none => rw [hid] at htr; exact absurd htr (by simp [pyTruthyOptNat])
      | some e =>
        refine ⟨e, rfl, ?_⟩
        rw [hid] at htr
        simpa [pyTruthyOptNat] using htr
    by_cases hcur : s.is_current = true
    case neg =>
      have hnc : s.is_current = false := by
        cases hb : s.is_current
        · rfl
        · exact absurd hb hcur
      have hres : (InternalSessionRepository.update db s).1 =
          { db with rows := db.rows.map (updateRow s) } := by
        simp [InternalSessionRepository.update, htr, hnc]
      rw [hres]
      refine ⟨hpos, ?_, ?_, ?_⟩
      · intro r hr
        obtain ⟨r0, hr0, rfl⟩ := List.mem_map.mp hr
        obtain ⟨m, hm, hp, hlt⟩ := hbound r0 hr0
        exact ⟨m, by rw [updateRow_id]; exact hm, hp, hlt⟩
      · show ((db.rows.map (updateRow s)).map (fun r => r.id)).Nodup
        rw [map_ids_eq (updateRow_id s)]
        exact hnodup
      · intro ext
        show (db.rows.map (updateRow s)).countP _ ≤ 1
        rw [List.countP_map]
        refine le_trans (List.countP_mono_left ?_) (hcount ext)
        intro r hr hyp
        simp only [Function.comp] at hyp
        by_cases hid2 : r.id = s.id
        · exfalso
          have hset : (updateRow s r).is_current = false := by
            simp [updateRow, hid2, hnc]
          rw [hset] at hyp
          simp at hyp
        · have hkeep : updateRow s r = r := by simp [updateRow, hid2]
          rw [hkeep] at hyp
          exact hyp
    case pos =>
      have hres : (InternalSessionRepository.update db s).1 =
          { rows := (db.rows.map
              (clearIfExtExcept s.external_session_id s.id)).map (updateRow s),
            nextId := db.nextId } := by
        simp [InternalSessionRepository.update, htr, hcur,
          InternalSessionRepository.mark_all_not_current]
      rw [hres]
      have hidpres : ∀ r,
          ((updateRow s) (clearIfExtExcept s.external_session_id s.id r)).id =
            r.id := by
        intro r
        rw [updateRow_id, clearIfExtExcept_id]
      refine ⟨hpos, ?_, ?_, ?_⟩
      · intro r hr
        rw [List.map_map] at hr
        obtain ⟨r0, hr0, rfl⟩ := List.mem_map.mp hr
        obtain ⟨m, hm, hp, hlt⟩ := hbound r0 hr0
        exact ⟨m, by rw [Function.comp_apply, hidpres]; exact hm, hp, hlt⟩
      · show (((db.rows.map _).map (updateRow s)).map (fun r => r.id)).Nodup
        rw [map_ids_eq (updateRow_id s), map_ids_eq (clearIfExtExcept_id _ _)]
        exact hnodup
      · intro ext
        show ((db.rows.map _).map (updateRow s)).countP _ ≤ 1
        rw [List.map_map, List.countP_map]
        by_cases hext : ext = s.external_session_id
        · refine le_trans (List.countP_mono_left ?_)
            (countP_id_le_one db.rows (some e) hnodup)
          intro r hr hyp
          simp only [Function.comp] at hyp
          by_cases hid2 : r.id = s.id
          · rw [hid2, he]
            simp
          · exfalso
            by_cases hext2 : r.external_session_id = s.external_session_id
            · have hclear : clearIfExtExcept s.external_session_id s.id r =
                  { r with is_current := false } := by
                simp [clearIfExtExcept, hext2, hid2]
              rw [hclear] at hyp
              have hkeep : updateRow s { r with is_current := false } =
                  { r with is_current := false } := by
                simp [updateRow, hid2]
              rw [hkeep] at hyp
              simp at hyp
            · have hclear : clearIfExtExcept s.external_session_id s.id r = r := by
                simp [clearIfExtExcept, hext2]
              rw [hclear] at hyp
              have hkeep : updateRow s r = r := by simp [updateRow, hid2]
              rw [hkeep] at hyp
              rw [hext] at hyp
              have : (r.external_session_id == s.external_session_id) = false :=
                beq_eq_false_iff_ne.mpr hext2
              rw [this] at hyp
              simp at hyp
        · refine le_trans (List.countP_mono_left ?_) (hcount ext)
          intro r hr hyp
          simp only [Function.comp] at hyp
          by_cases hid2 : r.id = s.id
          · exfalso
            have hclear : clearIfExtExcept s.external_session_id s.id r = r := by
              simp [clearIfExtExcept, hid2]
            rw [hclear] at hyp
            have hset : (updateRow s r).external_session_id =
                r.external_session_id := updateRow_ext s r
            have hrext := hconsE r hr hid2
            have : (r.external_session_id == ext) = false := by
              rw [hrext]
              exact beq_eq_false_iff_ne.mpr (fun hh => hext hh.symm)
            rw [show (updateRow s r).external_session_id = r.external_session_id
              from updateRow_ext s r, this] at hyp
            simp at hyp
          · by_cases hext2 : r.external_session_id = s.external_session_id
            · exfalso
              have hclear : clearIfExtExcept s.external_session_id s.id r =
                  { r with is_current := false } := by
                simp [clearIfExtExcept, hext2, hid2]
              rw [hclear] at hyp
              have hkeep : updateRow s { r with is_current := false } =
                  { r with is_current := false } := by
                simp [updateRow, hid2]
              rw [hkeep] at hyp
              simp at hyp
            · have hclear : clearIfExtExcept s.external_session_id s.id r = r := by
                simp [clearIfExtExcept, hext2]
              rw [hclear] at hyp
              have hkeep : updateRow s r = r := by simp [updateRow, hid2]
              rw [hkeep] at hyp
              exact hyp

/-- `InternalSessionRepository.set_current_session` preserves the table
invariant. -/
theorem inv_setCurrent (db : SessionDB) (sid : Nat) (h : db.Inv) :
    (InternalSessionRepository.set_current_session db sid).1.Inv := by
  obtain ⟨hpos, hbound, hnodup, hcount⟩ := h
  cases hfind : db.rows.find? (fun r => r.id == some sid) with
  | none =>
    have hres : (InternalSessionRepository.set_current_session db sid).1 = db := by
      simp [InternalSessionRepository.set_current_session, hfind]
    rw [hres]
    exact ⟨hpos, hbound, hnodup, hcount⟩
  | some row =>
    have hrowmem : row ∈ db.rows := List.mem_of_find?_eq_some hfind
    have hp := List.find?_some hfind
    have hrowid : row.id = some sid := by
      simpa using hp
    have hres : (InternalSessionRepository.set_current_session db sid).1 =
        { rows := (db.rows.map (clearIfExt row.external_session_id)).map
            (setCurrentRow sid),
          nextId := db.nextId } := by
      simp [InternalSessionRepository.set_current_session, hfind,
        InternalSessionRepository.mark_all_not_current, pyTruthyOptNat]
    rw [hres]
    have huniq : ∀ r ∈ db.rows, r.id = some sid → r = row :=
      fun r hr hid =>
        List.inj_on_of_nodup_map hnodup hr hrowmem (by rw [hid, hrowid])
    refine ⟨hpos, ?_, ?_, ?_⟩
    · intro r hr
      rw [List.map_map] at hr
      obtain ⟨r0, hr0, rfl⟩ := List.mem_map.mp hr
      obtain ⟨m, hm, hp, hlt⟩ := hbound r0 hr0
      refine ⟨m, ?_, hp, hlt⟩
      rw [Function.comp_apply, setCurrentRow_id, clearIfExt_id]
      exact hm
    · show (((db.rows.map (clearIfExt row.external_session_id)).map
        (setCurrentRow sid)).map (fun r : InternalSession => r.id)).Nodup
      rw [map_ids_eq (setCurrentRow_id _), map_ids_eq (clearIfExt_id _)]
      exact hnodup
    · intro ext
      show ((db.rows.map (clearIfExt row.external_session_id)).map
        (setCurrentRow sid)).countP
        (fun r => r.external_session_id == ext && r.is_current) ≤ 1
      rw [List.map_map, List.countP_map]
      by_cases hext : ext = row.external_session_id
      · refine le_trans (List.countP_mono_left ?_)
          (countP_id_le_one db.rows (some sid) hnodup)
        intro r hr hyp
        simp only [Function.comp] at hyp
        by_cases hid2 : r.id = some sid
        · rw [hid2]
          simp
        · exfalso
          have hset : setCurrentRow sid (clearIfExt row.external_session_id r) =
              clearIfExt row.external_session_id r := by
            simp [setCurrentRow, clearIfExt_id, hid2]
          rw [hset] at hyp
          by_cases hext2 : r.external_session_id = row.external_session_id
          · have hclear : clearIfExt row.external_session_id r =
                { r with is_current := false } := by
              simp [clearIfExt, hext2]
            rw [hclear] at hyp
            simp at hyp
          · have hclear : clearIfExt row.external_session_id r = r := by
              simp [clearIfExt, hext2]
            rw [hclear] at hyp
            rw [hext] at hyp
            have hb : (r.external_session_id == row.external_session_id) = false :=
              beq_eq_false_iff_ne.mpr hext2
            rw [hb] at hyp
            simp at hyp
      · refine le_trans (List.countP_mono_left ?_) (hcount ext)
        intro r hr hyp
        simp only [Function.comp] at hyp
        by_cases hid2 : r.id = some sid
        · exfalso
          have hrext : r.external_session_id = row.external_session_id := by
            rw [huniq r hr hid2]
          have hb : (r.external_session_id == ext) = false := by
            rw [hrext]
            exact beq_eq_false_iff_ne.mpr (fun hh => hext hh.symm)
          rw [show (setCurrentRow sid
              (clearIfExt row.external_session_id r)).external_session_id =
              r.external_session_id from by
            rw [setCurrentRow_ext, clearIfExt_ext], hb] at hyp
          simp at hyp
        · have hset : setCurrentRow sid (clearIfExt row.external_session_id r) =
              clearIfExt row.external_session_id r := by
            simp [setCurrentRow, clearIfExt_id, hid2]
          rw [hset] at hyp
          by_cases hext2 : r.external_session_id = row.external_session_id
          · exfalso
            have hclear : clearIfExt row.external_session_id r =
                { r with is_current := false } := by
              simp [clearIfExt, hext2]
            rw [hclear] at hyp
            simp at hyp
          · have hclear : clearIfExt row.external_session_id r = r := by
              simp [clearIfExt, hext2]
            rw [hclear] at hyp
            exact hyp

/-- The empty table satisfies the invariant. -/
theorem inv_empty : SessionDB.empty.Inv := by
  refine ⟨by decide, ?_, ?_, ?_⟩ <;> simp [SessionDB.empty, currentCount]

/-- A consistent run from an invariant-satisfying database keeps the
invariant. -/
theorem inv_runOps (ops : List SessionOp) :
    ∀ db : SessionDB, db.Inv → ConsistentRun db ops = true →
      (runOps db ops).Inv := by
  induction ops with
  | nil => intro db h _; exact h
  | cons op rest ih =>
    intro db h hc
    have hc' : (ConsistentOp db op &&
        ConsistentRun (SessionOp.apply db op) rest) = true := hc
    have h1 : ConsistentOp db op = true := by
      cases hop : ConsistentOp db op
      · rw [hop] at hc'; simp at hc'
      · rfl
    have h2 : ConsistentRun (SessionOp.apply db op) rest = true := by
      rw [h1] at hc'
      simpa using hc'
    show (runOps (SessionOp.apply db op) rest).Inv
    apply ih
    · cases op with
      | create s now => exact inv_create db s now h
      | update s => exact inv_update db s h h1
      | setCurrent sid => exact inv_setCurrent db sid h
    · exact h2

/-- C4 counterexample: starting from an empty table, create a current
session and a non-current session under external session 1, then call
`update` with a payload that addresses row 2 but misstates its external
session id as 2.  The excluding `_mark_all_not_current` then clears the
wrong external session, and afterwards BOTH rows of external session 1
are current: the claimed invariant fails under an (unchecked)
inconsistent `update` call. -/
theorem C4_inconsistent_update_breaks_uniqueness :
    currentCount 1 (runOps SessionDB.empty badOps) = 2 ∧
    ¬ currentCount 1 (runOps SessionDB.empty badOps) ≤ 1 := by
  constructor
  · rfl
  · decide

/-- C4 (amended): for every external session, after any sequence of
repository `create`, `update` and `set_current_session` operations in
which each `update` passes a session whose `external_session_id` agrees
with the stored row it addresses (as sessions read back from the
repository do), at most one internal session of that external session
has `is_current=true`. -/
theorem C4_at_most_one_current (ops : List SessionOp)
    (hc : ConsistentRun SessionDB.empty ops = true) :
    ∀ ext, currentCount ext (runOps SessionDB.empty ops) ≤ 1 :=
  (inv_runOps ops SessionDB.empty inv_empty hc).2.2.2

/-- Witness for C4: the same run with a consistent update payload keeps
external session 1 at a single current row. -/
theorem C4_at_most_one_current_witness :
    ConsistentRun SessionDB.empty goodOps = true ∧
    currentCount 1 (runOps SessionDB.empty goodOps) ≤ 1 :=
  ⟨by decide, C4_at_most_one_current goodOps (by decide) 1⟩

end AgentGit
